import Mathlib

/-!
Verification development for the GPU telemetry route of hthoene/ai-toolkit
(`src/ui/src/app/api/gpu/route.ts`, plus the variant adapter in
`src/unnamed/part_001`).

JavaScript dynamic values are modelled by the inductive type `JsVal`.
JavaScript numbers are modelled as extended rationals (`JsNum`): a finite
rational, `NaN`, or a signed infinity.  This model is exact where the code
performs integer-sized arithmetic and divisions; it does not model IEEE-754
rounding or overflow of enormous literals, which none of the verified
properties depend on.
-/

/-- A JavaScript number: `NaN`, a signed infinity, or a finite value
(modelled as a rational). -/
inductive JsNum where
  | nan : JsNum
  | inf (neg : Bool) : JsNum
  | fin (q : ℚ) : JsNum
deriving DecidableEq, Repr

/-- A JavaScript value as produced by `JSON.parse` plus `undefined`. -/
inductive JsVal where
  | undef : JsVal
  | null : JsVal
  | bool (b : Bool) : JsVal
  | num (n : JsNum) : JsVal
  | str (s : String) : JsVal
  | arr (elems : List JsVal) : JsVal
  | obj (fields : List (String × JsVal)) : JsVal
deriving Repr

/-- JavaScript truthiness: `undefined`, `null`, `false`, `0`, `NaN` and the
empty string are falsy; every other value (including any object or array)
is truthy. -/
def jsTruthy : JsVal → Bool
  | .undef => false
  | .null => false
  | .bool b => b
  | .num .nan => false
  | .num (.fin q) => q.num ≠ 0
  | .num (.inf _) => true
  | .str s => s ≠ ""
  | .arr _ => true
  | .obj _ => true

/-- The JavaScript `a || b` operator. -/
def jsOr (a b : JsVal) : JsVal := if jsTruthy a then a else b

/-- The JavaScript `a ?? b` (nullish coalescing) operator. -/
def jsCoalesce (a b : JsVal) : JsVal :=
  match a with
  | .undef => b
  | .null => b
  | _ => a

/-- Property access `v[k]` on a value known not to be `null`/`undefined`.
JSON-produced arrays and primitives have no named own properties, so the
lookup yields `undefined` for them. -/
def jsGet : JsVal → String → JsVal
  | .obj fields, k =>
      match fields.lookup k with
      | some v => v
      | none => .undef
  | _, _ => (.undef)

/-- Plain property access `v.k`, which throws a `TypeError` when `v` is
`null` or `undefined`. -/
def jsGetE (v : JsVal) (k : String) : Except Unit JsVal :=
  match v with
  | .undef => .error ()
  | .null => .error ()
  | _ => .ok (jsGet v k)

/-- Optional-chaining access `v?.k`: `undefined` when `v` is `null` or
`undefined`, ordinary access otherwise. -/
def jsOptGet (v : JsVal) (k : String) : JsVal :=
  match v with
  | .undef => .undef
  | .null => .undef
  | _ => jsGet v k

/-- Array indexing `xs[i]` with a numeric index: an element for an integer
index in range, `undefined` otherwise (negative, fractional, `NaN`,
infinite, or out-of-range indices all miss). -/
def jsIndexNum (xs : List JsVal) (i : JsNum) : JsVal :=
  match i with
  | .fin q =>
      if h : q.den = 1 ∧ 0 ≤ q.num ∧ q.num.toNat < xs.length then
        xs.get ⟨q.num.toNat, h.2.2⟩
      else .undef
  | _ => (.undef)

/-- Whether a value is `undefined` (the test in the `!== undefined` filter). -/
def jsIsUndef : JsVal → Bool
  | .undef => true
  | _ => false

/-- Whether a `JsNum` is a finite number (`Number.isFinite`). -/
def jsIsFinite : JsNum → Bool
  | .fin _ => true
  | _ => false

/-! ### Kernel-reducible rational arithmetic

The ring operations on `ℚ` from the library are `@[irreducible]`, which
blocks evaluation inside `decide`/`rfl` proofs.  The operations below are
plain reducible definitions built on `Rat.divInt`; each one is proved equal
to the corresponding library operation. -/

/-- Reducible multiplication on `ℚ` (equal to `a * b`). -/
def ratMul (a b : ℚ) : ℚ := Rat.divInt (a.num * b.num) ((a.den : Int) * b.den)

/-- Reducible subtraction on `ℚ` (equal to `a - b`). -/
def ratSub (a b : ℚ) : ℚ :=
  Rat.divInt (a.num * b.den - b.num * a.den) ((a.den : Int) * b.den)

/-- Reducible negation on `ℚ` (equal to `-a`). -/
def ratNeg (a : ℚ) : ℚ := Rat.neg a

/-! ### Number-to-string conversion (`String(n)` / `ToString`) -/

/-- Decimal digits of the fractional part of a non-negative rational,
computed by repeated multiplication by 10, with fuel. -/
def ratFracDigits : ℚ → Nat → String
  | _, 0 => ""
  | r, n + 1 =>
      if r.num = 0 then ""
      else
        let r10 := ratMul r 10
        let d : Nat := r10.num.toNat / r10.den
        toString d ++ ratFracDigits (ratSub r10 (d : ℚ)) n

/-- `String(n)` for a JavaScript number. Integers print exactly; non-integer
rationals print with up to 20 fractional digits. -/
def jsNumToString : JsNum → String
  | .nan => "NaN"
  | .inf neg => if neg then "-Infinity" else "Infinity"
  | .fin q =>
      let sgn := if q.num < 0 then "-" else ""
      let a := if q.num < 0 then ratNeg q else q
      let ip : Nat := a.num.toNat / a.den
      let fr := ratSub a (ip : ℚ)
      if fr.num = 0 then sgn ++ toString ip
      else sgn ++ toString ip ++ "." ++ ratFracDigits fr 20

mutual

/-- JavaScript `String(v)` conversion. -/
def jsToString : JsVal → String
  | .undef => "undefined"
  | .null => "null"
  | .bool b => if b then "true" else "false"
  | .num n => jsNumToString n
  | .str s => s
  | .arr xs => jsArrToString xs
  | .obj _ => "[object Object]"

/-- `Array.prototype.toString`: elements joined by commas. -/
def jsArrToString : List JsVal → String
  | [] => ""
  | [x] => jsElemToString x
  | x :: y :: xs => jsElemToString x ++ "," ++ jsArrToString (y :: xs)

/-- An array element in a join: `null` and `undefined` print as empty. -/
def jsElemToString : JsVal → String
  | .undef => ""
  | .null => ""
  | .bool b => if b then "true" else "false"
  | .num n => jsNumToString n
  | .str s => s
  | .arr xs => jsArrToString xs
  | .obj _ => "[object Object]"

end

/-! ### `parseInt` / `parseFloat` -/

/-- Drop leading whitespace characters. -/
def dropLeadingWs : List Char → List Char
  | [] => []
  | c :: cs => if c.isWhitespace then dropLeadingWs cs else c :: cs

/-- Split an optional leading sign; returns (negative?, rest). -/
def splitSign : List Char → Bool × List Char
  | '-' :: cs => (true, cs)
  | '+' :: cs => (false, cs)
  | cs => (false, cs)

/-- Value of a run of decimal digits. -/
def decDigitsVal (cs : List Char) : Nat :=
  cs.foldl (fun a c => a * 10 + (c.toNat - 48)) 0

/-- Whether a character is a hexadecimal digit. -/
def isHexDigitChar (c : Char) : Bool :=
  c.isDigit || ('a' ≤ c && c ≤ 'f') || ('A' ≤ c && c ≤ 'F')

/-- Value of one hexadecimal digit. -/
def hexDigitVal (c : Char) : Nat :=
  if c.isDigit then c.toNat - 48
  else if 'a' ≤ c then c.toNat - 87
  else c.toNat - 55

/-- Value of a run of hexadecimal digits. -/
def hexDigitsVal (cs : List Char) : Nat :=
  cs.foldl (fun a c => a * 16 + hexDigitVal c) 0

/-- JavaScript `parseInt(s)` with no radix argument: skips whitespace,
takes an optional sign, recognizes a `0x`/`0X` hexadecimal prefix, and
otherwise reads a maximal run of decimal digits; `NaN` if no digit. -/
def jsParseIntNoRadix (s : String) : JsNum :=
  let cs := dropLeadingWs s.toList
  let p := splitSign cs
  let sgn : Int := if p.1 then -1 else 1
  match p.2 with
  | '0' :: x :: rest =>
      if x = 'x' || x = 'X' then
        let ds := rest.takeWhile isHexDigitChar
        if ds.isEmpty then .nan
        else .fin ((sgn * (hexDigitsVal ds : Int) : Int) : ℚ)
      else
        let ds := ('0' :: x :: rest).takeWhile Char.isDigit
        .fin ((sgn * (decDigitsVal ds : Int) : Int) : ℚ)
  | other =>
      let ds := other.takeWhile Char.isDigit
      if ds.isEmpty then .nan
      else .fin ((sgn * (decDigitsVal ds : Int) : Int) : ℚ)

/-- JavaScript `parseInt(s, 10)`: decimal only, no hexadecimal prefix. -/
def jsParseInt10 (s : String) : JsNum :=
  let cs := dropLeadingWs s.toList
  let p := splitSign cs
  let sgn : Int := if p.1 then -1 else 1
  let ds := p.2.takeWhile Char.isDigit
  if ds.isEmpty then .nan
  else .fin ((sgn * (decDigitsVal ds : Int) : Int) : ℚ)

/-- JavaScript `parseFloat(s)`: skips whitespace, optional sign, then the
longest prefix that is `Infinity` or a decimal literal
`digits [. digits] [e[sign]digits]`; `NaN` when no digit is found. -/
def jsParseFloat (s : String) : JsNum :=
  let cs := dropLeadingWs s.toList
  let p := splitSign cs
  if "Infinity".toList.isPrefixOf p.2 then .inf p.1
  else
    let intDs := p.2.takeWhile Char.isDigit
    let r1 := p.2.dropWhile Char.isDigit
    let frp : List Char × List Char :=
      match r1 with
      | '.' :: t => (t.takeWhile Char.isDigit, t.dropWhile Char.isDigit)
      | _ => ([], r1)
    if intDs.isEmpty && frp.1.isEmpty then .nan
    else
      let fracDen : Nat := 10 ^ frp.1.length
      let mant : ℚ :=
        Rat.divInt ((decDigitsVal intDs * fracDen + decDigitsVal frp.1 : Nat) : Int)
          ((fracDen : Nat) : Int)
      let e : Int :=
        match frp.2 with
        | c :: t =>
            if c = 'e' || c = 'E' then
              let ep := splitSign t
              let eds := ep.2.takeWhile Char.isDigit
              if eds.isEmpty then 0
              else (if ep.1 then -1 else 1) * (decDigitsVal eds : Int)
            else 0
        | [] => 0
      let v :=
        if 0 ≤ e then ratMul mant (((10 ^ e.toNat : Nat) : Int) : ℚ)
        else Rat.divInt (mant.num) (mant.den * ((10 ^ (-e).toNat : Nat) : Int))
      .fin (if p.1 then ratNeg v else v)

/-! ### The tolerant numeric parse utilities

`route.ts` (the primary file):
```
function amdParseInt(value) { return parseInt(value || 0); }
function amdParseFloat(value) { return parseFloat(value || 0); }
```
-/

/-- `amdParseInt` of `route.ts`: `parseInt(value || 0)`, where `parseInt`
first coerces its argument with `String(·)`. -/
def amdParseInt (value : JsVal) : JsNum :=
  jsParseIntNoRadix (jsToString (jsOr value (.num (.fin 0))))

/-- `amdParseFloat` of `route.ts`: `parseFloat(value || 0)`. -/
def amdParseFloat (value : JsVal) : JsNum :=
  jsParseFloat (jsToString (jsOr value (.num (.fin 0))))

namespace Part001

/-- `amdParseInt` of `src/unnamed/part_001`:
`const n = parseInt(String(value ?? '0'), 10); return Number.isFinite(n) ? n : 0;` -/
def amdParseInt (value : JsVal) : JsNum :=
  let n := jsParseInt10 (jsToString (jsCoalesce value (.str "0")))
  if jsIsFinite n then n else .fin 0

/-- `amdParseFloat` of `src/unnamed/part_001`:
`const n = parseFloat(String(value ?? '0')); return Number.isFinite(n) ? n : 0;` -/
def amdParseFloat (value : JsVal) : JsNum :=
  let n := jsParseFloat (jsToString (jsCoalesce value (.str "0")))
  if jsIsFinite n then n else .fin 0

end Part001

/-! ### The normalized device record -/

/-- The normalized per-device record built by both adapters.  `name` and
`driverVersion` keep their dynamic `JsVal` type (the NVIDIA path can leave
them `undefined` on a short line; the AMD path substitutes string
defaults). -/
structure GpuRecord where
  index : JsNum
  name : JsVal
  driverVersion : JsVal
  temperature : JsNum
  utilGpu : JsNum
  utilMemory : JsNum
  memTotal : JsNum
  memFree : JsNum
  memUsed : JsNum
  powerDraw : JsNum
  powerLimit : JsNum
  clockGraphics : JsNum
  clockMemory : JsNum
  fanSpeed : JsNum
deriving Repr

/-! ### String splitting and trimming (JavaScript `split` / `trim`) -/

/-- Fuel-driven split of a character list on a non-empty separator,
scanning left to right and taking the first occurrence each time (the
behaviour of JavaScript `String.prototype.split` with a string separator).
Fuel `l.length + 1` always suffices. -/
def splitOnFuel (sep : List Char) : Nat → List Char → List (List Char)
  | 0, l => [l]
  | _ + 1, [] => [[]]
  | fuel + 1, c :: cs =>
      if !sep.isEmpty && sep.isPrefixOf (c :: cs) then
        [] :: splitOnFuel sep fuel ((c :: cs).drop sep.length)
      else
        match splitOnFuel sep fuel cs with
        | [] => [[c]]
        | h :: t => (c :: h) :: t

/-- JavaScript `s.split(sep)` for a non-empty string separator. -/
def jsSplit (sep s : String) : List String :=
  (splitOnFuel sep.toList (s.toList.length + 1) s.toList).map fun cs => String.mk cs

/-- JavaScript `s.trim()`: strip whitespace from both ends. -/
def jsTrim (s : String) : String :=
  String.mk (((s.toList.dropWhile Char.isWhitespace).reverse.dropWhile
    Char.isWhitespace).reverse)

/-! ### Vendor A (NVIDIA) adapter: `getGpuStats` -/

/-- Extract the `i`-th destructured field of a split line; a missing
position is JavaScript `undefined`, which `parseInt`/`parseFloat` coerce to
the string form used here. -/
def nvFieldStr (fields : List String) (i : Nat) : String :=
  match fields[i]? with
  | some s => s
  | none => "undefined"

/-- `parseInt` applied to a destructured (possibly missing) field. -/
def nvInt (fields : List String) (i : Nat) : JsNum :=
  jsParseIntNoRadix (nvFieldStr fields i)

/-- `parseFloat` applied to a destructured (possibly missing) field. -/
def nvFloat (fields : List String) (i : Nat) : JsNum :=
  jsParseFloat (nvFieldStr fields i)

/-- The body of the `map` in `getGpuStats`: split one CSV line on the
delimiter, trim each field, and build the record (`fan.speed` carries the
only `|| 0` default). -/
def parseNvLine (line : String) : GpuRecord :=
  let fields := (jsSplit ", " line).map jsTrim
  { index := nvInt fields 0
    name :=
      match fields[1]? with
      | some s => .str s
      | none => .undef
    driverVersion :=
      match fields[2]? with
      | some s => .str s
      | none => .undef
    temperature := nvInt fields 3
    utilGpu := nvInt fields 4
    utilMemory := nvInt fields 5
    memTotal := nvInt fields 6
    memFree := nvInt fields 7
    memUsed := nvInt fields 8
    powerDraw := nvFloat fields 9
    powerLimit := nvFloat fields 10
    clockGraphics := nvInt fields 11
    clockMemory := nvInt fields 12
    fanSpeed :=
      let v := nvInt fields 13
      if jsTruthy (.num v) then v else .fin 0 }

/-- `getGpuStats`, from the tool output onward:
`stdout.trim().split('\n').map(line => ...)`. -/
def getGpuStats (stdout : String) : List GpuRecord :=
  (jsSplit "\n" (jsTrim stdout)).map parseNvLine

/-! ### Vendor B (AMD) adapter: `getAMDGpuStats` -/

/-- Line 134/135 of `route.ts`:
`Array.isArray(sdata.gpu_data) ? sdata.gpu_data : (Array.isArray(sdata) ? sdata : [])`.
The leading `sdata.gpu_data` access throws when `sdata` is `null` or
`undefined`. -/
def normalizeGpusE (v : JsVal) : Except Unit (List JsVal) := do
  let gd ← jsGetE v "gpu_data"
  match gd with
  | .arr xs => pure xs
  | _ =>
      match v with
      | .arr xs => pure xs
      | _ => pure []

/-- Division of rationals avoiding the irreducible `Rat.inv`; agrees with
`a / b` for every `b ≠ 0` (see `ratDiv_eq_div`). -/
def ratDiv (a b : ℚ) : ℚ := Rat.divInt (a.num * b.den) (a.den * b.num)

/-- Multiplication of JavaScript numbers (only needed for `· * 100`). -/
def jsNumMul : JsNum → JsNum → JsNum
  | .nan, _ => .nan
  | _, .nan => .nan
  | .fin a, .fin b => .fin (ratMul a b)
  | .inf s, .fin b => if b.num = 0 then .nan else .inf (xor s (b.num < 0))
  | .fin a, .inf s => if a.num = 0 then .nan else .inf (xor s (a.num < 0))
  | .inf s, .inf t => .inf (xor s t)

/-- Division of JavaScript numbers (only applied with a positive finite
divisor in the code). -/
def jsNumDiv : JsNum → JsNum → JsNum
  | .nan, _ => .nan
  | _, .nan => .nan
  | .fin a, .fin b =>
      if b.num = 0 then (if a.num = 0 then .nan else .inf (a.num < 0))
      else .fin (ratDiv a b)
  | .inf s, .fin b => .inf (xor s (b.num < 0))
  | .fin _, .inf _ => .fin 0
  | .inf _, .inf _ => .nan

/-- The `n > 0` comparison on a JavaScript number (`NaN > 0` is false). -/
def jsGtZero : JsNum → Bool
  | .fin q => 0 < q.num
  | .inf neg => !neg
  | .nan => false

/-- The derived memory-utilization field:
`mem_total > 0 ? (mem_used / mem_total * 100) : 0`. -/
def amdMemUtil (memUsed memTotal : JsNum) : JsNum :=
  if jsGtZero memTotal then jsNumMul (jsNumDiv memUsed memTotal) (.fin 100)
  else .fin 0

/-- The JavaScript literal `0` appearing as the right operand of the
`|| 0` defaults. -/
def jsZero : JsVal := .num (.fin 0)

/-- The body of the `map` in `getAMDGpuStats`, after the (possibly
throwing) plain `d.gpu` access has produced `dgpu`.  `index` is the map
position. -/
def amdRecordBody (metricGpus : List JsVal) (index : Nat) (dgpu : JsVal)
    (d : JsVal) : GpuRecord :=
  let i := amdParseInt (jsOr dgpu (.num (.fin index)))
  let gpu_data := jsOr (jsIndexNum metricGpus i) (.obj [])
  let mem_total := amdParseFloat (jsOr
    (jsOptGet (jsOptGet (jsGet gpu_data "mem_usage") "total_vram") "value") jsZero)
  let mem_used := amdParseFloat (jsOr
    (jsOptGet (jsOptGet (jsGet gpu_data "mem_usage") "used_vram") "value") jsZero)
  let mem_free := amdParseFloat (jsOr
    (jsOptGet (jsOptGet (jsGet gpu_data "mem_usage") "free_visible_vram") "value") jsZero)
  { index := i
    name := jsOr (jsOptGet (jsGet d "asic") "market_name") (.str "AMD GPU")
    driverVersion := jsOr (jsOptGet (jsGet d "driver") "version") (.str "N/A")
    temperature := amdParseInt (jsOr
      (jsOptGet (jsOptGet (jsGet gpu_data "temperature") "hotspot") "value") jsZero)
    utilGpu := amdParseInt (jsOr
      (jsOptGet (jsOptGet (jsGet gpu_data "usage") "gfx_activity") "value") jsZero)
    utilMemory := amdMemUtil mem_used mem_total
    memTotal := mem_total
    memFree := mem_free
    memUsed := mem_used
    powerDraw := amdParseFloat (jsOr
      (jsOptGet (jsOptGet (jsGet gpu_data "power") "socket_power") "value") jsZero)
    powerLimit := amdParseFloat (jsOr
      (jsOptGet (jsOptGet (jsGet d "limit") "max_power") "value") jsZero)
    clockGraphics := amdParseInt (jsOr
      (jsOptGet (jsOptGet (jsOptGet (jsGet gpu_data "clock") "gfx_0") "clk") "value") jsZero)
    clockMemory := amdParseInt (jsOr
      (jsOptGet (jsOptGet (jsOptGet (jsGet gpu_data "clock") "mem_0") "clk") "value") jsZero)
    fanSpeed := amdParseFloat (jsOr
      (jsOptGet (jsOptGet (jsGet gpu_data "fan") "usage") "value") jsZero) }

/-- One step of the `map`: the plain `d.gpu` access throws on a
`null`/`undefined` static entry; every later access on `d` is either
optional-chained or performed on a value already known non-null. -/
def amdRecord (metricGpus : List JsVal) (index : Nat) (d : JsVal) :
    Except Unit GpuRecord :=
  (jsGetE d "gpu").map fun dgpu => amdRecordBody metricGpus index dgpu d

/-- The non-throwing value of one map step on a non-null static entry. -/
def amdRecordPure (metricGpus : List JsVal) (index : Nat) (d : JsVal) :
    GpuRecord :=
  amdRecordBody metricGpus index (jsGet d "gpu") d

/-- The index assigned to the static entry `d` at map position `k`:
`amdParseInt(d.gpu || index)`. -/
def amdIdx (d : JsVal) (k : Nat) : JsNum :=
  amdParseInt (jsOr (jsGet d "gpu") (.num (.fin k)))

/-- `getAMDGpuStats` from the two parsed JSON documents onward: normalize
both shapes, join positionally, and apply the trailing
`.filter(g => g.index !== undefined)`. -/
def getAMDGpuStatsJoin (sdata mdata : JsVal) : Except Unit (List GpuRecord) := do
  let staticGpus ← normalizeGpusE sdata
  let metricGpus ← normalizeGpusE mdata
  let recs ← staticGpus.enum.mapM fun p => amdRecord metricGpus p.1 p.2
  pure (recs.filter fun g => !(jsIsUndef (.num g.index)))

/-- `getAMDGpuStats` from the two `JSON.parse` outcomes onward: `none`
models a `JSON.parse` throw, which the adapter catches,
returning `[]`. -/
def getAMDGpuStatsParsed (sres mres : Option JsVal) :
    Except Unit (List GpuRecord) :=
  match sres, mres with
  | some sdata, some mdata => getAMDGpuStatsJoin sdata mdata
  | _, _ => .ok []

/-! ### Orchestrator: `GET` -/

/-- The response envelope.  `cpu = none` models the `cpu` key being absent
(it is present, possibly with a `null` value, only on the CPU-fallback
path); likewise `error`. -/
structure Envelope where
  hasNvidiaSmi : Bool
  hasAmdSmi : Bool
  gpus : List GpuRecord
  cpu : Option JsVal
  error : Option String
  status : Nat
deriving Repr

/-- The catch-branch envelope of `GET`. -/
def errorEnvelope (msg : String) : Envelope :=
  { hasNvidiaSmi := false
    hasAmdSmi := false
    gpus := []
    cpu := none
    error := some ("Failed to fetch GPU stats: " ++ msg)
    status := 500 }

/-- `GET`, with the effectful probes and adapter calls abstracted as
outcomes: `hasNvidia`/`hasAmd` are the detector results, the two adapter
results are `Except` values (an `error` models a throw that reaches the
top-level catch), and `cpuRes` is the never-throwing CPU-fallback value
(possibly `null`). -/
def GET (hasNvidia hasAmd : Bool)
    (nvidiaRes : Except String (List GpuRecord))
    (amdRes : Except String (List GpuRecord))
    (cpuRes : JsVal) : Envelope :=
  if hasNvidia then
    match nvidiaRes with
    | .ok gpuStats =>
        { hasNvidiaSmi := true, hasAmdSmi := false, gpus := gpuStats
          cpu := none, error := none, status := 200 }
    | .error e => errorEnvelope e
  else if hasAmd then
    match amdRes with
    | .ok gpuStats =>
        { hasNvidiaSmi := false, hasAmdSmi := true, gpus := gpuStats
          cpu := none, error := none, status := 200 }
    | .error e => errorEnvelope e
  else
    { hasNvidiaSmi := false, hasAmdSmi := false, gpus := []
      cpu := some cpuRes, error := none, status := 200 }

/-- All metric-derived (telemetry) fields of a record are exactly zero;
`name`, `driverVersion`, `index` and the static `power.limit` are not
constrained. -/
def zeroTelemetry (r : GpuRecord) : Prop :=
  r.temperature = .fin 0 ∧ r.utilGpu = .fin 0 ∧ r.utilMemory = .fin 0 ∧
  r.memTotal = .fin 0 ∧ r.memFree = .fin 0 ∧ r.memUsed = .fin 0 ∧
  r.powerDraw = .fin 0 ∧ r.clockGraphics = .fin 0 ∧ r.clockMemory = .fin 0 ∧
  r.fanSpeed = .fin 0

/-! ### Concrete fixtures from the specification scenarios -/

/-- The vendor-A output line of end-to-end scenario 1. -/
def nvScenario1 : String :=
  "0, RTX 4090, 535.1, 45, 12, 3, 24576, 20000, 4576, 120.5, 450.0, 2500, 10000, 55"

/-- The record scenario 1 must produce (`120.5 = 241/2`, `450.0 = 450`). -/
def nvScenario1Rec : GpuRecord :=
  { index := .fin 0, name := .str "RTX 4090", driverVersion := .str "535.1"
    temperature := .fin 45, utilGpu := .fin 12, utilMemory := .fin 3
    memTotal := .fin 24576, memFree := .fin 20000, memUsed := .fin 4576
    powerDraw := .fin (Rat.divInt 241 2), powerLimit := .fin 450
    clockGraphics := .fin 2500, clockMemory := .fin 10000, fanSpeed := .fin 55 }

/-- Scenario 1 with the temperature field replaced by the literal `N/A`. -/
def nvLineNA : String :=
  "0, RTX 4090, 535.1, N/A, 12, 3, 24576, 20000, 4576, 120.5, 450.0, 2500, 10000, 55"

/-- Scenario 1 with the fan-speed field replaced by the literal `N/A`. -/
def nvLineFanNA : String :=
  "0, RTX 4090, 535.1, 45, 12, 3, 24576, 20000, 4576, 120.5, 450.0, 2500, 10000, N/A"

/-- The record produced from a single empty line (empty/whitespace-only
tool output): every `parseInt`/`parseFloat` sees an empty or missing field
(`NaN`), except `fan.speed` whose `|| 0` default fires. -/
def nvEmptyRec : GpuRecord :=
  { index := .nan, name := .undef, driverVersion := .undef
    temperature := .nan, utilGpu := .nan, utilMemory := .nan
    memTotal := .nan, memFree := .nan, memUsed := .nan
    powerDraw := .nan, powerLimit := .nan
    clockGraphics := .nan, clockMemory := .nan, fanSpeed := .fin 0 }

/-- The single device object of end-to-end scenario 3. -/
def scen3Dev : JsVal :=
  .obj [("gpu", .str "0"), ("asic", .obj [("market_name", .str "MI300")])]

/-- The static query result of end-to-end scenario 3 (wrapped shape). -/
def scen3Static : JsVal := .obj [("gpu_data", .arr [scen3Dev])]

/-- The record scenario 3 must produce: name from the static data, every
telemetry field zeroed. -/
def scen3Rec : GpuRecord :=
  { index := .fin 0, name := .str "MI300", driverVersion := .str "N/A"
    temperature := .fin 0, utilGpu := .fin 0, utilMemory := .fin 0
    memTotal := .fin 0, memFree := .fin 0, memUsed := .fin 0
    powerDraw := .fin 0, powerLimit := .fin 0
    clockGraphics := .fin 0, clockMemory := .fin 0, fanSpeed := .fin 0 }

/-- A static device entry whose `gpu` field is a non-numeric string. -/
def c4Dev : JsVal := .obj [("gpu", .str "abc")]

/-- A static query result containing only `c4Dev`. -/
def c4Static : JsVal := .obj [("gpu_data", .arr [c4Dev])]

/-! ### Agreement of the reducible rational operations with the library ones -/

theorem ratMul_eq (a b : ℚ) : ratMul a b = a * b := by
  rw [ratMul, Rat.divInt_eq_div]
  push_cast
  conv_rhs => rw [← Rat.num_div_den a, ← Rat.num_div_den b]
  rw [div_mul_div_comm]

theorem ratDiv_eq_div (a b : ℚ) (hb : b ≠ 0) : ratDiv a b = a / b := by
  have had : ((a.den : ℚ)) ≠ 0 := by exact_mod_cast a.den_nz
  have hbd : ((b.den : ℚ)) ≠ 0 := by exact_mod_cast b.den_nz
  have ha : ((a : ℚ)) * ((a.den : ℚ)) = (a.num : ℚ) := by
    nth_rewrite 1 [← Rat.num_div_den a]
    exact div_mul_cancel₀ _ had
  have hbq : ((b : ℚ)) * ((b.den : ℚ)) = (b.num : ℚ) := by
    nth_rewrite 1 [← Rat.num_div_den b]
    exact div_mul_cancel₀ _ hbd
  have hden : ((a.den : ℚ)) * ((b.num : ℚ)) ≠ 0 := by
    refine mul_ne_zero had ?_
    exact_mod_cast Rat.num_ne_zero.mpr hb
  rw [ratDiv, Rat.divInt_eq_div]
  push_cast
  rw [div_eq_div_iff hden hb, ← ha, ← hbq]
  ring

/-! ### Structural lemmas about the vendor-B join -/

/-- The second component of an enumerated entry is a member of the
original list. -/
theorem snd_mem_of_mem_enumFrom {α : Type} {l : List α} {n : Nat}
    {p : Nat × α} (h : p ∈ l.enumFrom n) : p.2 ∈ l := by
  induction l generalizing n with
  | nil => cases h
  | cons a t ih =>
      rcases List.mem_cons.mp h with h1 | h2
      · subst h1; exact List.mem_cons_self _ _
      · exact List.mem_cons_of_mem _ (ih h2)

/-- A non-null static entry makes the map step succeed with the pure
record value. -/
theorem amdRecord_ok (m : List JsVal) (k : Nat) (d : JsVal)
    (h1 : d ≠ JsVal.null) (h2 : d ≠ JsVal.undef) :
    amdRecord m k d = .ok (amdRecordPure m k d) := by
  cases d <;> simp_all [amdRecord, amdRecordPure, jsGetE, Except.map]

/-- `mapM` over non-null entries succeeds and equals the pure map. -/
theorem amdMapM_ok (m : List JsVal) (l : List (Nat × JsVal))
    (h : ∀ p ∈ l, p.2 ≠ JsVal.null ∧ p.2 ≠ JsVal.undef) :
    (l.mapM fun p => amdRecord m p.1 p.2) =
      .ok (l.map fun p => amdRecordPure m p.1 p.2) := by
  induction l with
  | nil => rfl
  | cons p t ih =>
      have hp := h p (List.mem_cons_self _ _)
      have ht := fun q hq => h q (List.mem_cons_of_mem _ hq)
      rw [List.mapM_cons, amdRecord_ok m p.1 p.2 hp.1 hp.2, ih ht]
      rfl

/-- The trailing `filter(g => g.index !== undefined)` keeps every record:
its `index` field is always a number. -/
theorem filter_index_eq_self (recs : List GpuRecord) :
    (recs.filter fun g => !(jsIsUndef (.num g.index))) = recs := by
  induction recs with
  | nil => rfl
  | cons r t ih => simp [List.filter_cons, jsIsUndef, ih]

/-- A bare array normalizes to its own element sequence. -/
theorem normalizeGpusE_arr (xs : List JsVal) :
    normalizeGpusE (.arr xs) = .ok xs := rfl

/-- A wrapped object whose `gpu_data` field holds an array normalizes to
that array. -/
theorem normalizeGpusE_obj (xs : List JsVal) (fields : List (String × JsVal))
    (h : fields.lookup "gpu_data" = some (.arr xs)) :
    normalizeGpusE (.obj fields) = .ok xs := by
  show (jsGetE (.obj fields) "gpu_data") >>= _ = _
  have hg : jsGetE (.obj fields) "gpu_data" = .ok (.arr xs) := by
    simp [jsGetE, jsGet, h]
  rw [hg]
  rfl

/-- The full join on two already-normalized arrays of non-null static
entries: every step succeeds and the filter keeps everything. -/
theorem getAMDGpuStatsJoin_ok (sList mList : List JsVal)
    (h : ∀ d ∈ sList, d ≠ JsVal.null ∧ d ≠ JsVal.undef) :
    getAMDGpuStatsJoin (.arr sList) (.arr mList) =
      .ok (sList.enum.map fun p => amdRecordPure mList p.1 p.2) := by
  have henum : ∀ p ∈ sList.enum, p.2 ≠ JsVal.null ∧ p.2 ≠ JsVal.undef :=
    fun p hp => h p.2 (snd_mem_of_mem_enumFrom hp)
  show (sList.enum.mapM fun p => amdRecord mList p.1 p.2) >>= _ = _
  rw [amdMapM_ok mList sList.enum henum]
  show Except.ok _ = _
  rw [filter_index_eq_self]

/-- The index stored in the joined record is `amdParseInt(d.gpu || k)`. -/
theorem amdRecordPure_index (m : List JsVal) (k : Nat) (d : JsVal) :
    (amdRecordPure m k d).index = amdIdx d k := rfl

/-- When the positional lookup in the metric sequence misses, the static
record is joined against the empty object and every telemetry field is
zero. -/
theorem amdRecordPure_zero (m : List JsVal) (k : Nat) (d : JsVal)
    (h : jsIndexNum m (amdIdx d k) = .undef) :
    zeroTelemetry (amdRecordPure m k d) := by
  simp only [amdIdx] at h
  simp only [zeroTelemetry, amdRecordPure, amdRecordBody, h]
  exact ⟨rfl, rfl, rfl, rfl, rfl, rfl, rfl, rfl, rfl, rfl⟩

/-! ### Claim theorems -/

/-- Claim C9: for all well-formed vendor-A text output, the adapter maps
each line (in order) through the per-line parser, returning exactly as many
records as lines; on the scenario-1 line it yields the expected record with
`index = 0`, `name = "RTX 4090"`, `temperature = 45`,
`utilization.gpu = 12`, `memory.used = 4576`, `power.draw = 120.5`. -/
theorem claim_c9 :
    (∀ stdout lines, jsSplit "\n" (jsTrim stdout) = lines →
      getGpuStats stdout = lines.map parseNvLine ∧
      (getGpuStats stdout).length = lines.length) ∧
    getGpuStats nvScenario1 = [nvScenario1Rec] := by
  constructor
  · intro stdout lines h
    constructor
    · show (jsSplit "\n" (jsTrim stdout)).map parseNvLine = _
      rw [h]
    · show ((jsSplit "\n" (jsTrim stdout)).map parseNvLine).length = _
      rw [h, List.length_map]
  · rfl

/-- Witness for C9 at the scenario-1 line: one line in, one record out. -/
theorem claim_c9_witness :
    getGpuStats nvScenario1 = [nvScenario1].map parseNvLine ∧
    (getGpuStats nvScenario1).length = [nvScenario1].length :=
  claim_c9.1 nvScenario1 [nvScenario1] (by decide)

/-- Claim C10 (implicit): empty or whitespace-only vendor-A output
produces exactly one record (trim-then-split of the empty string yields one
empty line), with the numeric fields parsed from empty/missing fields. -/
theorem claim_c10 :
    getGpuStats "" = [nvEmptyRec] ∧
    getGpuStats "   \n\t " = [nvEmptyRec] ∧
    (getGpuStats "").length = 1 :=
  ⟨rfl, rfl, rfl⟩

/-- Counterexample to claim C5: a `N/A` temperature parses to `NaN`, not
to `0` as claimed. -/
theorem claim_c5_counterexample :
    (parseNvLine nvLineNA).temperature = JsNum.nan ∧
    (parseNvLine nvLineNA).temperature ≠ JsNum.fin 0 :=
  ⟨rfl, by decide⟩

/-- Claim C5 (amended): a single failed numeric field yields `NaN` for that
field (`0` only for `fan.speed`, which alone has a `|| 0` default); the
rest of the record is parsed unchanged and the record is not discarded. -/
theorem claim_c5 :
    parseNvLine nvLineNA =
      { nvScenario1Rec with temperature := .nan } ∧
    (getGpuStats nvLineNA).length = 1 ∧
    (parseNvLine nvLineFanNA).fanSpeed = JsNum.fin 0 :=
  ⟨rfl, rfl, rfl⟩

/-- Counterexample to claim C3: `route.ts`'s `amdParseInt` on the
non-numeric string `"abc"` returns `NaN` - not a finite number and not the
claimed default `0`. -/
theorem claim_c3_counterexample :
    amdParseInt (JsVal.str "abc") = JsNum.nan ∧
    jsIsFinite (amdParseInt (JsVal.str "abc")) = false :=
  ⟨rfl, rfl⟩

/-- Claim C3 (amended): the `part_001` utilities satisfy the full tolerant
contract (always a finite number, `0` on missing key, `null`, non-numeric
string, or non-finite result); the `route.ts` variants default missing and
`null` to `0` but return `NaN` on non-numeric strings and `Infinity` on an
`"Infinity"` input. -/
theorem claim_c3 :
    (∀ v, jsIsFinite (Part001.amdParseInt v) = true) ∧
    (∀ v, jsIsFinite (Part001.amdParseFloat v) = true) ∧
    Part001.amdParseInt JsVal.null = JsNum.fin 0 ∧
    Part001.amdParseInt JsVal.undef = JsNum.fin 0 ∧
    Part001.amdParseInt (JsVal.str "abc") = JsNum.fin 0 ∧
    Part001.amdParseFloat (JsVal.str "Infinity") = JsNum.fin 0 ∧
    Part001.amdParseFloat JsVal.null = JsNum.fin 0 ∧
    amdParseInt JsVal.null = JsNum.fin 0 ∧
    amdParseInt JsVal.undef = JsNum.fin 0 ∧
    amdParseFloat JsVal.null = JsNum.fin 0 ∧
    amdParseFloat (JsVal.str "Infinity") = JsNum.inf false := by
  refine ⟨?_, ?_, rfl, rfl, rfl, rfl, rfl, rfl, rfl, rfl, rfl⟩
  · intro v
    simp only [Part001.amdParseInt]
    cases h : jsParseInt10 (jsToString (jsCoalesce v (.str "0"))) <;>
      simp [jsIsFinite]
  · intro v
    simp only [Part001.amdParseFloat]
    cases h : jsParseFloat (jsToString (jsCoalesce v (.str "0"))) <;>
      simp [jsIsFinite]

/-- Counterexample to claim C7: with the scenario-3 static document and a
failing metric parse, the adapter returns the empty list - not static-only
records with zeroed telemetry (the static document holds one device). -/
theorem claim_c7_counterexample :
    getAMDGpuStatsParsed (some scen3Static) none = .ok [] ∧
    normalizeGpusE scen3Static = .ok [scen3Dev] :=
  ⟨rfl, rfl⟩

/-- Claim C7 (amended): when the static query parses but the metric JSON
fails to parse, the adapter returns a successful empty device list (the
call does not fail, but no static-only records are produced either). -/
theorem claim_c7 :
    ∀ sdata, getAMDGpuStatsParsed (some sdata) none = .ok [] :=
  fun _ => rfl

/-- Claim C1: joining any static array with any metric array (static
entries non-null, so the `d.gpu` access cannot throw) never raises: it
returns one record per static entry, in order; a record whose looked-up
position misses the metric sequence (out of range, `NaN`, negative) is
joined against the empty object, zeroing every telemetry field.  On the
scenario-3 input (one static device `MI300`, empty metric array) the
adapter returns exactly one record named `MI300` with all telemetry
fields zero. -/
theorem claim_c1 :
    (∀ sList mList : List JsVal,
      (∀ d ∈ sList, d ≠ JsVal.null ∧ d ≠ JsVal.undef) →
      getAMDGpuStatsJoin (.arr sList) (.arr mList) =
        .ok (sList.enum.map fun p => amdRecordPure mList p.1 p.2) ∧
      (sList.enum.map fun p => amdRecordPure mList p.1 p.2).length =
        sList.length ∧
      (∀ k d, sList[k]? = some d →
        (sList.enum.map fun p => amdRecordPure mList p.1 p.2)[k]? =
          some (amdRecordPure mList k d)) ∧
      (∀ k d, sList[k]? = some d →
        jsIndexNum mList (amdIdx d k) = .undef →
        zeroTelemetry (amdRecordPure mList k d))) ∧
    getAMDGpuStatsParsed (some scen3Static) (some (.arr [])) =
      .ok [scen3Rec] := by
  constructor
  · intro sList mList h
    refine ⟨getAMDGpuStatsJoin_ok sList mList h, ?_, ?_, ?_⟩
    · rw [List.length_map, List.enum_length]
    · intro k d hk
      rw [List.getElem?_map, List.getElem?_enum, hk]
      rfl
    · intro k d hk hz
      exact amdRecordPure_zero mList k d hz
  · rfl

/-- Witness for C1: the scenario-3 static list joined with the empty
metric list succeeds with one record per static entry. -/
theorem claim_c1_witness :
    getAMDGpuStatsJoin (.arr [scen3Dev]) (.arr []) =
      .ok ([scen3Dev].enum.map fun p => amdRecordPure [] p.1 p.2) :=
  (claim_c1.1 [scen3Dev] [] (by
    intro d hd
    rw [List.mem_singleton] at hd
    subst hd
    exact ⟨by simp [scen3Dev], by simp [scen3Dev]⟩)).1

/-- Counterexample to claim C4: a static entry whose `gpu` field is the
string `"abc"` produces a record whose index is `NaN` - not a finite
non-negative number - and the trailing filter (`index !== undefined`)
keeps it, because a number is never `undefined`. -/
theorem claim_c4_counterexample :
    Except.map (List.map GpuRecord.index)
      (getAMDGpuStatsJoin c4Static (.arr [])) = Except.ok [JsNum.nan] ∧
    jsIsFinite JsNum.nan = false :=
  ⟨rfl, rfl⟩

/-- Claim C4 (amended): every returned record's index equals
`amdParseInt(d.gpu || position)`, which `route.ts`'s `amdParseInt` can
leave as `NaN` (or negative); the post-filter compares the numeric index
against `undefined` and therefore never drops a record - the join returns
exactly one record per static entry. -/
theorem claim_c4 :
    (∀ sList mList : List JsVal,
      (∀ d ∈ sList, d ≠ JsVal.null ∧ d ≠ JsVal.undef) →
      getAMDGpuStatsJoin (.arr sList) (.arr mList) =
        .ok (sList.enum.map fun p => amdRecordPure mList p.1 p.2) ∧
      (sList.enum.map fun p => amdRecordPure mList p.1 p.2).length =
        sList.length ∧
      (∀ k d, sList[k]? = some d →
        (amdRecordPure mList k d).index = amdIdx d k)) ∧
    amdIdx c4Dev 0 = JsNum.nan := by
  constructor
  · intro sList mList h
    refine ⟨getAMDGpuStatsJoin_ok sList mList h, ?_, ?_⟩
    · rw [List.length_map, List.enum_length]
    · intro k d hk
      exact amdRecordPure_index mList k d
  · rfl

/-- Witness for C4: on the `"abc"`-indexed static entry the join succeeds
and returns exactly its mapped record. -/
theorem claim_c4_witness :
    getAMDGpuStatsJoin (.arr [c4Dev]) (.arr []) =
      .ok ([c4Dev].enum.map fun p => amdRecordPure [] p.1 p.2) :=
  (claim_c4.1 [c4Dev] [] (by
    intro d hd
    rw [List.mem_singleton] at hd
    subst hd
    exact ⟨by simp [c4Dev], by simp [c4Dev]⟩)).1

/-- Counterexample to claim C2: the top-level shape `null` is neither a
bare array nor a wrapped object, yet the adapter raises (the `sdata.gpu_data`
access throws a `TypeError`) instead of normalizing to the empty
sequence. -/
theorem claim_c2_counterexample :
    getAMDGpuStatsJoin JsVal.null (.arr []) = .error () :=
  rfl

/-- Claim C2 (amended): a bare array and the wrapped object holding the
same array produce identical adapter output, and every other top-level
shape except `null`/`undefined` normalizes to the empty sequence; `null`
(valid JSON) raises instead. -/
theorem claim_c2 :
    (∀ xs mdata, getAMDGpuStatsJoin (.arr xs) mdata =
      getAMDGpuStatsJoin (.obj [("gpu_data", .arr xs)]) mdata) ∧
    (∀ xs fields, fields.lookup "gpu_data" = some (.arr xs) →
      normalizeGpusE (.obj fields) = .ok xs) ∧
    (∀ xs, normalizeGpusE (.arr xs) = .ok xs) ∧
    (∀ v, v ≠ JsVal.null → v ≠ JsVal.undef → (∀ xs, v ≠ .arr xs) →
      (∀ xs, jsGet v "gpu_data" ≠ .arr xs) →
      normalizeGpusE v = .ok []) := by
  refine ⟨?_, normalizeGpusE_obj, normalizeGpusE_arr, ?_⟩
  · intro xs mdata
    show (normalizeGpusE (.arr xs)) >>= _ =
      (normalizeGpusE (.obj [("gpu_data", .arr xs)])) >>= _
    rw [normalizeGpusE_arr,
      normalizeGpusE_obj xs [("gpu_data", .arr xs)] rfl]
  · intro v h1 h2 h3 h4
    match v with
    | .null => exact absurd rfl h1
    | .undef => exact absurd rfl h2
    | .arr xs => exact absurd rfl (h3 xs)
    | .bool b => rfl
    | .num n => rfl
    | .str s => rfl
    | .obj fields =>
        show (jsGetE (.obj fields) "gpu_data") >>= _ = _
        have : jsGetE (.obj fields) "gpu_data" = .ok (jsGet (.obj fields) "gpu_data") := rfl
        rw [this]
        cases hw : jsGet (.obj fields) "gpu_data" with
        | arr xs => exact absurd hw (h4 xs)
        | undef => rfl
        | null => rfl
        | bool b => rfl
        | num n => rfl
        | str s => rfl
        | obj g => rfl

/-- Witness for C2: the wrapped empty-array object normalizes to the empty
sequence, and a bare number normalizes to the empty sequence. -/
theorem claim_c2_witness :
    normalizeGpusE (.obj [("gpu_data", .arr ([] : List JsVal))]) =
      .ok ([] : List JsVal) ∧
    normalizeGpusE (.num (.fin 5)) = .ok [] :=
  ⟨claim_c2.2.1 [] _ rfl,
   claim_c2.2.2.2 _ (by simp) (by simp) (by simp) (by simp [jsGet])⟩

/-- Claim C6: the derived `utilization.memory` equals `used/total*100`
when `total > 0` and `0` when `total = 0`, for all non-negative finite
used/total; and every joined record's `utilMemory` is exactly this derived
function of its own stored `memUsed` and `memTotal`. -/
theorem claim_c6 :
    (∀ u t : ℚ, 0 ≤ u → 0 ≤ t →
      amdMemUtil (.fin u) (.fin t) =
        if 0 < t then JsNum.fin (u / t * 100) else JsNum.fin 0) ∧
    (∀ m k d, (amdRecordPure m k d).utilMemory =
      amdMemUtil (amdRecordPure m k d).memUsed
        (amdRecordPure m k d).memTotal) := by
  constructor
  · intro u t hu ht
    by_cases h : 0 < t
    · have hnum : 0 < t.num := Rat.num_pos.mpr h
      have ht0 : t ≠ 0 := ne_of_gt h
      simp [amdMemUtil, jsGtZero, jsNumDiv, jsNumMul, hnum, hnum.ne', h,
        ratMul_eq, ratDiv_eq_div u t ht0]
    · have hnum : ¬ 0 < t.num := by rwa [Rat.num_pos]
      simp [amdMemUtil, jsGtZero, hnum, h]
  · intro m k d
    rfl

/-- Witness for C6 at `used = 1`, `total = 2`: the derived utilization is
`1/2*100 = 50`. -/
theorem claim_c6_witness :
    amdMemUtil (.fin 1) (.fin 2) =
      if 0 < (2 : ℚ) then JsNum.fin (1 / 2 * 100) else JsNum.fin 0 :=
  claim_c6.1 1 2 (by norm_num) (by norm_num)

/-- Claim C8: the orchestrator always yields a well-formed envelope with
at most one capability flag set; an adapter-level hard failure yields
both flags false, no devices, a populated error message and status 500;
absence of all GPU tooling yields both flags false, no devices, a present
`cpu` field, and no error. -/
theorem claim_c8 :
    ∀ (hasNvidia hasAmd : Bool)
      (nvidiaRes amdRes : Except String (List GpuRecord)) (cpuRes : JsVal),
      (¬((GET hasNvidia hasAmd nvidiaRes amdRes cpuRes).hasNvidiaSmi = true ∧
        (GET hasNvidia hasAmd nvidiaRes amdRes cpuRes).hasAmdSmi = true)) ∧
      (∀ e, hasNvidia = true → nvidiaRes = .error e →
        GET hasNvidia hasAmd nvidiaRes amdRes cpuRes = errorEnvelope e) ∧
      (∀ e, hasNvidia = false → hasAmd = true → amdRes = .error e →
        GET hasNvidia hasAmd nvidiaRes amdRes cpuRes = errorEnvelope e) ∧
      (hasNvidia = false → hasAmd = false →
        GET hasNvidia hasAmd nvidiaRes amdRes cpuRes =
          { hasNvidiaSmi := false, hasAmdSmi := false, gpus := []
            cpu := some cpuRes, error := none, status := 200 }) ∧
      (∀ e, (errorEnvelope e).hasNvidiaSmi = false ∧
        (errorEnvelope e).hasAmdSmi = false ∧
        (errorEnvelope e).gpus = [] ∧
        (errorEnvelope e).error =
          some ("Failed to fetch GPU stats: " ++ e) ∧
        (errorEnvelope e).status = 500) := by
  intro hasNvidia hasAmd nvidiaRes amdRes cpuRes
  refine ⟨?_, ?_, ?_, ?_, ?_⟩
  · cases hasNvidia <;> cases hasAmd <;>
      cases nvidiaRes <;> cases amdRes <;>
      simp [GET, errorEnvelope]
  · intro e h1 h2
    subst h1; subst h2
    rfl
  · intro e h1 h2 h3
    subst h1; subst h2; subst h3
    rfl
  · intro h1 h2
    subst h1; subst h2
    rfl
  · intro e
    exact ⟨rfl, rfl, rfl, rfl, rfl⟩

/-- Witness for C8: a hard NVIDIA-adapter failure yields the error
envelope, and absence of both tools yields the CPU-fallback envelope. -/
theorem claim_c8_witness :
    GET true false (.error "boom") (.ok []) .null =
      errorEnvelope "boom" ∧
    GET false false (.ok []) (.ok []) .null =
      { hasNvidiaSmi := false, hasAmdSmi := false, gpus := []
        cpu := some .null, error := none, status := 200 } :=
  ⟨(claim_c8 true false (.error "boom") (.ok []) .null).2.1 "boom" rfl rfl,
   (claim_c8 false false (.ok []) (.ok []) .null).2.2.2.1 rfl rfl⟩
